import Mathlib

/-!
Verification of the grpc-tunnel transport adapter and tunnel.

Shallow embedding of the Go sources:
- `inferWebSocketURL` from the non-browser client (pkg/grpctunnel, client file)
- `inferBrowserWebSocketURL` from pkg/grpctunnel/client_wasm.go
- `webSocketConn` (server side) from pkg/grpctunnel/conn.go, modelled as `GTConn`
- `webSocketConn` (bridge variant) from pkg/bridge/conn.go, modelled as `BridgeConn`
- `browserWebSocketConnection` from pkg/wasm/dialer/websocket_conn.go, modelled
  as `BrowserConn`
- the `Wrap` handler from pkg/grpctunnel/server.go, modelled as an event trace

Bytes are `Nat`; Go byte slices are `List Nat`.  Go errors that matter to the
adapters are the constants of `GoErr`.  The WebSocket substrate is modelled by
explicit state: a list of pending inbound messages, a list of sent messages,
and oracle arguments for substrate results (write errors, close errors).
-/

/-- Go error values the adapters return or receive from the substrate.
`ioEOF` is io.EOF, `netErrClosed` is net.ErrClosed, `errClosedPipe` is
io.ErrClosedPipe, and `sub s` stands for an arbitrary substrate error. -/
inductive GoErr where
  | ioEOF
  | netErrClosed
  | errClosedPipe
  | sub (msg : String)
deriving DecidableEq, Repr

/-- WebSocket data message types surfaced by gorilla NextReader / ReadMessage
(control frames are handled inside the substrate and never surfaced). -/
inductive WSMsgType where
  | text
  | binary
deriving DecidableEq, Repr

/-- One WebSocket data message: its type and payload bytes. -/
structure WSMessage where
  type : WSMsgType
  data : List Nat
deriving DecidableEq, Repr

/-- Go strings.HasPrefix: true iff `p` is a leading substring of `s`.
Defined over character lists so that concrete instances reduce in the kernel. -/
def strHasPre (s p : String) : Bool :=
  List.isPrefixOf p.toList s.toList

/-- Scheme string picked by the non-browser normalizer: wss iff a TLS config
was supplied (`useTLS` is `options.tlsConfig != nil` at the call site). -/
def wsScheme (useTLS : Bool) : String :=
  if useTLS then "wss" else "ws"

/-- Embedding of `inferWebSocketURL` (non-browser client): pass ws:// and
wss:// targets through, prepend "localhost" to a target starting with a colon,
then prefix the scheme. -/
def inferWebSocketURL (target : String) (useTLS : Bool) : String :=
  if strHasPre target "ws://" || strHasPre target "wss://" then
    target
  else
    let target1 := if strHasPre target ":" then "localhost" ++ target else target
    wsScheme useTLS ++ "://" ++ target1

/-- The browser location object: window.location.protocol and
window.location.host, as read by inferBrowserWebSocketURL. -/
structure JSLocation where
  protocol : String
  host : String
deriving DecidableEq, Repr

/-- Scheme picked by the browser normalizer: wss iff the page protocol is
https:. -/
def browserScheme (l : JSLocation) : String :=
  if l.protocol = "https:" then "wss" else "ws"

/-- Embedding of `inferBrowserWebSocketURL` (pkg/grpctunnel/client_wasm.go).
The Go guard `len(target) >= 5 && target[:5] == "ws://"` is exactly a test
for the leading substring, written here with strHasPre.  `loc` is
`none` when window.location is not truthy (the fallback branch). -/
def inferBrowserWebSocketURL (target : String) (loc : Option JSLocation) : String :=
  if strHasPre target "ws://" then target
  else if strHasPre target "wss://" then target
  else
    match loc with
    | none =>
      if target = "" then "ws://localhost:8080"
      else "ws://" ++ target
    | some l =>
      if target = "" then browserScheme l ++ "://" ++ l.host
      else if strHasPre target "/" then browserScheme l ++ "://" ++ l.host ++ target
      else browserScheme l ++ "://" ++ target

/-- C9: a non-browser target not starting with ws://, wss:// or a colon is
prefixed with the scheme verbatim; in particular the empty target with no TLS
option yields exactly "ws://". -/
theorem c9_empty_target_scheme_only :
    (∀ (t : String) (tls : Bool),
        strHasPre t "ws://" = false → strHasPre t "wss://" = false →
        strHasPre t ":" = false →
        inferWebSocketURL t tls = wsScheme tls ++ "://" ++ t) ∧
    inferWebSocketURL "" false = "ws://" := by
  constructor
  · intro t tls h1 h2 h3
    simp [inferWebSocketURL, h1, h2, h3]
  · rfl

/-- Witness for C9: the general clause applied at the concrete target "x:1". -/
theorem c9_witness : inferWebSocketURL "x:1" false = "ws://x:1" := by
  have h := c9_empty_target_scheme_only.1 "x:1" false (by decide) (by decide) (by decide)
  exact h.trans (by decide)

/-- C6 counterexample: in the browser normalizer a target beginning with a
colon gets no "localhost" inserted: with page location http://example.com the
target ":8080" maps to "ws://:8080", not "ws://localhost:8080". -/
theorem c6_counterexample :
    inferBrowserWebSocketURL ":8080" (some ⟨"http:", "example.com"⟩) = "ws://:8080" ∧
    "ws://:8080" ≠ "ws://localhost:8080" := by
  exact ⟨by decide, by decide⟩

/-- C6 (amended): both normalizers pass ws:// and wss:// targets through
unchanged; in the non-browser normalizer a target beginning with a colon gets
"localhost" prepended before the scheme, and a bare host:port target gets wss
iff a TLS option was supplied; the browser normalizer maps the empty target to
scheme://host of the page, a /path target to scheme://host/path, and any other
target (a colon-led target included) to scheme://target, with wss iff the page
is https. -/
theorem c6_url_normalization :
    (∀ (t : String) (tls : Bool),
        (strHasPre t "ws://" = true ∨ strHasPre t "wss://" = true) →
        inferWebSocketURL t tls = t) ∧
    (∀ (t : String) (loc : Option JSLocation),
        (strHasPre t "ws://" = true ∨ strHasPre t "wss://" = true) →
        inferBrowserWebSocketURL t loc = t) ∧
    (∀ (t : String) (tls : Bool),
        strHasPre t "ws://" = false → strHasPre t "wss://" = false →
        strHasPre t ":" = true →
        inferWebSocketURL t tls = wsScheme tls ++ "://" ++ ("localhost" ++ t)) ∧
    (∀ (t : String) (tls : Bool),
        strHasPre t "ws://" = false → strHasPre t "wss://" = false →
        strHasPre t ":" = false →
        inferWebSocketURL t tls = wsScheme tls ++ "://" ++ t) ∧
    (∀ l : JSLocation,
        inferBrowserWebSocketURL "" (some l) = browserScheme l ++ "://" ++ l.host) ∧
    (∀ (t : String) (l : JSLocation),
        strHasPre t "ws://" = false → strHasPre t "wss://" = false →
        t ≠ "" → strHasPre t "/" = true →
        inferBrowserWebSocketURL t (some l) = browserScheme l ++ "://" ++ l.host ++ t) ∧
    (∀ (t : String) (l : JSLocation),
        strHasPre t "ws://" = false → strHasPre t "wss://" = false →
        t ≠ "" → strHasPre t "/" = false →
        inferBrowserWebSocketURL t (some l) = browserScheme l ++ "://" ++ t) := by
  refine ⟨?_, ?_, ?_, ?_, ?_, ?_, ?_⟩
  · intro t tls h
    rcases h with h | h <;> simp [inferWebSocketURL, h]
  · intro t loc h
    rcases h with h | h <;> simp [inferBrowserWebSocketURL, h]
  · intro t tls h1 h2 h3
    simp [inferWebSocketURL, h1, h2, h3]
  · intro t tls h1 h2 h3
    simp [inferWebSocketURL, h1, h2, h3]
  · intro l
    simp [inferBrowserWebSocketURL, strHasPre]
  · intro t l h1 h2 h3 h4
    simp [inferBrowserWebSocketURL, h1, h2, h3, h4]
  · intro t l h1 h2 h3 h4
    simp [inferBrowserWebSocketURL, h1, h2, h3, h4]

/-- Witness for C6: the amended clauses applied at concrete targets. -/
theorem c6_witness :
    inferWebSocketURL "ws://h:1" true = "ws://h:1" ∧
    inferWebSocketURL ":8080" false = "ws://localhost:8080" ∧
    inferWebSocketURL "h:1" true = "wss://h:1" ∧
    inferBrowserWebSocketURL "" (some ⟨"https:", "h"⟩) = "wss://h" ∧
    inferBrowserWebSocketURL "/grpc" (some ⟨"http:", "h"⟩) = "ws://h/grpc" := by
  refine ⟨?_, ?_, ?_, ?_, ?_⟩
  · exact c6_url_normalization.1 "ws://h:1" true (Or.inl (by decide))
  · exact (c6_url_normalization.2.2.1 ":8080" false (by decide) (by decide)
      (by decide)).trans (by decide)
  · exact (c6_url_normalization.2.2.2.1 "h:1" true (by decide) (by decide)
      (by decide)).trans (by decide)
  · exact (c6_url_normalization.2.2.2.2.1 ⟨"https:", "h"⟩).trans (by decide)
  · exact (c6_url_normalization.2.2.2.2.2.1 "/grpc" ⟨"http:", "h"⟩ (by decide)
      (by decide) (by decide) (by decide)).trans (by decide)

/-- State of the server-side adapter `webSocketConn` in pkg/grpctunnel/conn.go
together with its substrate.  `msgs` are the inbound WebSocket messages not
yet surfaced by NextReader; `reader` embeds the stored gorilla message reader
as the bytes it has not yet delivered (gorilla delivers remaining bytes with a
nil error and signals io.EOF only on a later call, once no bytes remain, so
`some []` is an exhausted-but-still-stored reader); `closed` is the closed
flag, `onceDone` records that closeOnce has fired, `wsCloseCount` counts calls
of the underlying ws.Close, and `sent` lists the messages written with
WriteMessage. -/
structure GTConn where
  msgs : List WSMessage
  reader : Option (List Nat)
  closed : Bool
  onceDone : Bool
  wsCloseCount : Nat
  sent : List WSMessage
deriving DecidableEq, Repr

/-- Embedding of webSocketConn.Read (pkg/grpctunnel/conn.go).  `cap` is
len(p).  The result is the bytes copied into p and the Go error, plus the new
state; `none` means the call blocks (no pending message).  Mirrors the code:
a closed adapter returns (0, io.EOF); with no stored reader it calls
NextReader, drops a non-binary message and returns (0, io.EOF) without
touching the closed flag; otherwise it reads from the stored reader, mapping
the io.EOF end-of-message sentinel to reader = nil with a nil error. -/
def GTConn.read (c : GTConn) (cap : Nat) : Option ((List Nat × Option GoErr) × GTConn) :=
  if c.closed then some (([], some GoErr.ioEOF), c)
  else
    match c.reader with
    | some rem =>
      if rem = [] then some (([], none), { c with reader := none })
      else some ((rem.take cap, none), { c with reader := some (rem.drop cap) })
    | none =>
      match c.msgs with
      | [] => none
      | m :: rest =>
        match m.type with
        | WSMsgType.text => some (([], some GoErr.ioEOF), { c with msgs := rest })
        | WSMsgType.binary =>
          if m.data = [] then some (([], none), { c with msgs := rest, reader := none })
          else some ((m.data.take cap, none),
            { c with msgs := rest, reader := some (m.data.drop cap) })

/-- Embedding of webSocketConn.Write (pkg/grpctunnel/conn.go).  `subErr` is
the result of the substrate call ws.WriteMessage(BinaryMessage, p): a closed
adapter returns (0, io.ErrClosedPipe); a substrate error is returned with a
zero count; otherwise the whole payload goes out as one binary message and
the call returns (len(p), nil). -/
def GTConn.write (c : GTConn) (p : List Nat) (subErr : Option GoErr) :
    (Nat × Option GoErr) × GTConn :=
  if c.closed then ((0, some GoErr.errClosedPipe), c)
  else
    match subErr with
    | some e => ((0, some e), c)
    | none => ((p.length, none), { c with sent := c.sent ++ [⟨WSMsgType.binary, p⟩] })

/-- Embedding of webSocketConn.Close (pkg/grpctunnel/conn.go).  `wsRes` is
the result the underlying ws.Close would return.  The err variable is local
to Close, so when closeOnce has already fired the call returns nil without
touching anything; the first call sets the closed flag, closes the underlying
WebSocket once and returns its result. -/
def GTConn.close (c : GTConn) (wsRes : Option GoErr) : Option GoErr × GTConn :=
  if c.onceDone then (none, c)
  else (wsRes, { c with onceDone := true, closed := true, wsCloseCount := c.wsCloseCount + 1 })

/-- State after `k` consecutive Close calls (each would get the same substrate
close result `wsRes`; only the first ever reaches the substrate). -/
def GTConn.afterCloses (c : GTConn) (wsRes : Option GoErr) : Nat → GTConn
  | 0 => c
  | k + 1 => ((GTConn.afterCloses c wsRes k).close wsRes).2

/-- Return value of close call number `k + 1` in that sequence. -/
def GTConn.closeResult (c : GTConn) (wsRes : Option GoErr) (k : Nat) : Option GoErr :=
  ((GTConn.afterCloses c wsRes k).close wsRes).1

/-- State of the bridge-variant adapter `webSocketConn` in pkg/bridge/conn.go
with its substrate: pending inbound messages, the readBuf remainder slice and
the messages sent so far. -/
structure BridgeConn where
  msgs : List WSMessage
  readBuf : List Nat
  sent : List WSMessage
deriving DecidableEq, Repr

/-- Embedding of webSocketConn.Read (pkg/bridge/conn.go).  `cap` is len(p).
If the remainder is non-empty, copy from it and return without touching the
substrate; otherwise ReadMessage: a non-binary message yields
(0, net.ErrClosed) with no other state change, a binary message is copied
into p (`copy` takes min(cap, len(data)) bytes) and the excess, if any, is
stored as the new remainder. -/
def BridgeConn.read (c : BridgeConn) (cap : Nat) :
    Option ((List Nat × Option GoErr) × BridgeConn) :=
  if 0 < c.readBuf.length then
    some ((c.readBuf.take cap, none), { c with readBuf := c.readBuf.drop cap })
  else
    match c.msgs with
    | [] => none
    | m :: rest =>
      match m.type with
      | WSMsgType.text => some (([], some GoErr.netErrClosed), { c with msgs := rest })
      | WSMsgType.binary =>
        let n := min cap m.data.length
        if n < m.data.length then
          some ((m.data.take cap, none), { c with msgs := rest, readBuf := m.data.drop n })
        else
          some ((m.data.take cap, none), { c with msgs := rest })

/-- Payload of a browser message event: an ArrayBuffer (js.TypeObject, carrying
bytes) or any non-object value such as the string delivered for a text frame. -/
inductive JSData where
  | buffer (bytes : List Nat)
  | nonObject
deriving DecidableEq, Repr

/-- The byte slice the onmessage handler extracts from the event data: the
buffer contents for an ArrayBuffer, and nil for any non-object value (the
handler also leaves messageBytes nil when arrayLength is 0). -/
def jsDataBytes : JSData → List Nat
  | JSData.buffer bs => bs
  | JSData.nonObject => []

/-- Capacity of incomingMessagesChannel in NewWebSocketConn:
make(chan []byte, 10). -/
def browserMsgCapacity : Nat := 10

/-- State of browserWebSocketConnection (pkg/wasm/dialer/websocket_conn.go):
the buffered contents of the two inbound channels, whether the channels have
been closed, the closed flag, and the payloads handed to WebSocket.send. -/
structure BrowserConn where
  msgQueue : List (List Nat)
  errQueue : List GoErr
  channelsClosed : Bool
  closed : Bool
  sent : List (List Nat)
deriving DecidableEq, Repr

/-- Embedding of the onmessage handler registered in NewWebSocketConn: extract
the bytes; if any were extracted and the adapter is not closed, perform a
non-blocking channel send — append when the buffered queue is below capacity,
silently drop otherwise; in every other case leave the state unchanged. -/
def BrowserConn.onMessage (c : BrowserConn) (d : JSData) : BrowserConn :=
  let bytes := jsDataBytes d
  if 0 < bytes.length then
    if c.closed then c
    else if c.msgQueue.length < browserMsgCapacity then
      { c with msgQueue := c.msgQueue ++ [bytes] }
    else c
  else c

/-- Embedding of browserWebSocketConnection.Read.  `cap` is the destination
buffer length.  A closed adapter returns (0, net.ErrClosed).  Otherwise the
select is modelled taking a buffered message first: the whole message leaves
the queue and only its first `cap` bytes are returned — the adapter keeps no
remainder.  With no message, a buffered error is returned; with both queues
empty, a closed channel yields (0, net.ErrClosed) and otherwise the call
blocks (`none`). -/
def BrowserConn.read (c : BrowserConn) (cap : Nat) :
    Option ((List Nat × Option GoErr) × BrowserConn) :=
  if c.closed then some (([], some GoErr.netErrClosed), c)
  else
    match c.msgQueue with
    | m :: rest => some ((m.take cap, none), { c with msgQueue := rest })
    | [] =>
      match c.errQueue with
      | e :: rest => some (([], some e), { c with errQueue := rest })
      | [] =>
        if c.channelsClosed then some (([], some GoErr.netErrClosed), c)
        else none

/-- Embedding of browserWebSocketConnection.Write: a closed adapter returns
(0, net.ErrClosed); otherwise the payload is handed to WebSocket.send as one
binary message and the call returns (len(sourceData), nil). -/
def BrowserConn.write (c : BrowserConn) (p : List Nat) : (Nat × Option GoErr) × BrowserConn :=
  if c.closed then ((0, some GoErr.netErrClosed), c)
  else ((p.length, none), { c with sent := c.sent ++ [p] })

/-- Events observable in one run of the Wrap handler
(pkg/grpctunnel/server.go): the two lifecycle hooks, a byte read or write on
the adapter performed by the HTTP/2 serve loop, the deferred adapter close and
the deferred ws.Close. -/
inductive WrapEvent where
  | hookConnect
  | hookDisconnect
  | adapterRead
  | adapterWrite
  | connClose
  | wsClose
deriving DecidableEq, Repr

/-- Trace of one run of the handler returned by Wrap, as a function of whether
the upgrade succeeded and of the adapter events the HTTP/2 serve loop performs
(`serveEvents`).  On upgrade failure the handler returns at once: no hooks, no
adapter.  On success the body runs the connect hook (when configured), then
ServeConn, then the deferred functions in last-in-first-out order: conn.Close,
the disconnect hook (when configured), ws.Close. -/
def wrapTrace (hasConnect hasDisconnect upgradeOk : Bool)
    (serveEvents : List WrapEvent) : List WrapEvent :=
  if upgradeOk then
    (if hasConnect then [WrapEvent.hookConnect] else [])
      ++ serveEvents
      ++ [WrapEvent.connClose]
      ++ (if hasDisconnect then [WrapEvent.hookDisconnect] else [])
      ++ [WrapEvent.wsClose]
  else []

/-- C1 counterexample: on the bridge adapter a text message makes Read return
(0, net.ErrClosed), yet the very next Read succeeds and delivers the byte of
the following binary message — the violation is not fatal and later Reads do
deliver bytes from later messages. -/
theorem c1_counterexample :
    BridgeConn.read ⟨[⟨WSMsgType.text, [104, 105]⟩, ⟨WSMsgType.binary, [7]⟩], [], []⟩ 16
      = some (([], some GoErr.netErrClosed), ⟨[⟨WSMsgType.binary, [7]⟩], [], []⟩) ∧
    BridgeConn.read ⟨[⟨WSMsgType.binary, [7]⟩], [], []⟩ 16
      = some (([7], none), ⟨[], [], []⟩) := by
  exact ⟨rfl, rfl⟩

/-- C1 (amended): a Read that dequeues a non-binary message returns 0 bytes
and an error (io.EOF in the grpctunnel adapter, net.ErrClosed in the bridge
adapter), but the violation is not fatal at the adapter: the closed flag is
untouched and only that message is consumed, so a subsequent Read dequeues the
next message and can deliver its bytes. -/
theorem c1_nonbinary_read :
    (∀ (c : GTConn) (cap : Nat) (m : WSMessage) (rest : List WSMessage),
        c.closed = false → c.reader = none → c.msgs = m :: rest →
        m.type = WSMsgType.text →
        GTConn.read c cap = some (([], some GoErr.ioEOF), { c with msgs := rest }) ∧
        ({ c with msgs := rest } : GTConn).closed = false) ∧
    (∀ (c : BridgeConn) (cap : Nat) (m : WSMessage) (rest : List WSMessage),
        c.readBuf = [] → c.msgs = m :: rest → m.type = WSMsgType.text →
        BridgeConn.read c cap
          = some (([], some GoErr.netErrClosed), { c with msgs := rest })) ∧
    (∀ (c : BridgeConn) (cap : Nat) (m2 : WSMessage) (rest2 : List WSMessage),
        c.readBuf = [] → m2.type = WSMsgType.binary → m2.data ≠ [] → 0 < cap →
        ∃ c2, BridgeConn.read { c with msgs := m2 :: rest2 } cap
            = some ((m2.data.take cap, none), c2) ∧ m2.data.take cap ≠ []) := by
  refine ⟨?_, ?_, ?_⟩
  · intro c cap m rest hcl hrd hm ht
    rcases m with ⟨mt, md⟩
    cases ht
    simp [GTConn.read, hcl, hrd, hm]
  · intro c cap m rest hbuf hm ht
    rcases m with ⟨mt, md⟩
    cases ht
    simp [BridgeConn.read, hbuf, hm]
  · intro c cap m2 rest2 hbuf hb hd hcap
    rcases m2 with ⟨mt, md⟩
    cases hb
    have hnil : md.take cap ≠ [] := by
      cases md with
      | nil => exact absurd rfl hd
      | cons a l =>
        cases cap with
        | zero => omega
        | succ k => simp [List.take]
    by_cases hlt : min cap md.length < md.length
    · refine ⟨{ c with msgs := rest2, readBuf := md.drop (min cap md.length) }, ?_, hnil⟩
      simp [BridgeConn.read, hbuf, hlt]
    · refine ⟨{ c with msgs := rest2 }, ?_, hnil⟩
      simp [BridgeConn.read, hbuf, hlt]

/-- C2 counterexample: on the grpctunnel adapter, a 1-byte binary message read
into a 1-byte buffer leaves an exhausted reader stored (a remainder holding
zero bytes); the next Read then returns (0, nil) without reading the pending
second message, where the claim requires a Read facing an empty remainder to
read one WebSocket message and copy its bytes. -/
theorem c2_counterexample :
    GTConn.read ⟨[⟨WSMsgType.binary, [1]⟩, ⟨WSMsgType.binary, [2]⟩], none, false, false, 0, []⟩ 1
      = some (([1], none), ⟨[⟨WSMsgType.binary, [2]⟩], some [], false, false, 0, []⟩) ∧
    GTConn.read ⟨[⟨WSMsgType.binary, [2]⟩], some [], false, false, 0, []⟩ 1
      = some (([], none), ⟨[⟨WSMsgType.binary, [2]⟩], none, false, false, 0, []⟩) := by
  exact ⟨rfl, rfl⟩

/-- C2 (amended): the bridge adapter behaves exactly as claimed: a non-empty
remainder is served from the front without touching the substrate, and a Read
of a binary message stores exactly the excess beyond len(dst) as the new
remainder (nothing when the message fits).  The grpctunnel adapter serves a
stored non-empty reader the same way, but after a message is consumed exactly
it keeps the exhausted reader: the next Read observes the end-of-message
sentinel and returns (0, nil) without reading a new WebSocket message, and
only the Read after that dequeues the next message. -/
theorem c2_read_remainder :
    (∀ (c : BridgeConn) (cap : Nat), 0 < c.readBuf.length →
        BridgeConn.read c cap
          = some ((c.readBuf.take cap, none), { c with readBuf := c.readBuf.drop cap })) ∧
    (∀ (c : BridgeConn) (cap : Nat) (m : WSMessage) (rest : List WSMessage),
        c.readBuf = [] → c.msgs = m :: rest → m.type = WSMsgType.binary →
        BridgeConn.read c cap
          = some ((m.data.take cap, none),
              { c with msgs := rest, readBuf := m.data.drop cap })) ∧
    (∀ (c : GTConn) (cap : Nat) (rem : List Nat), c.closed = false →
        c.reader = some rem → rem ≠ [] →
        GTConn.read c cap
          = some ((rem.take cap, none), { c with reader := some (rem.drop cap) })) ∧
    (∀ (c : GTConn) (cap : Nat), c.closed = false → c.reader = some [] →
        GTConn.read c cap = some (([], none), { c with reader := none })) ∧
    (∀ (c : GTConn) (cap : Nat) (m : WSMessage) (rest : List WSMessage),
        c.closed = false → c.reader = none → c.msgs = m :: rest →
        m.type = WSMsgType.binary → m.data ≠ [] →
        GTConn.read c cap
          = some ((m.data.take cap, none),
              { c with msgs := rest, reader := some (m.data.drop cap) })) ∧
    (∀ (c : GTConn) (cap : Nat) (m : WSMessage) (rest : List WSMessage),
        c.closed = false → c.reader = none → c.msgs = m :: rest →
        m.type = WSMsgType.binary → m.data = [] →
        GTConn.read c cap = some (([], none), { c with msgs := rest, reader := none })) := by
  refine ⟨?_, ?_, ?_, ?_, ?_, ?_⟩
  · intro c cap hbuf
    simp [BridgeConn.read, hbuf]
  · intro c cap m rest hbuf hm hb
    rcases m with ⟨mt, md⟩
    cases hb
    by_cases hlt : min cap md.length < md.length
    · have hdrop : md.drop (min cap md.length) = md.drop cap := by
        have : min cap md.length = cap := by omega
        rw [this]
      simp [BridgeConn.read, hbuf, hm, hlt, hdrop]
    · have hdrop : md.drop cap = [] := by
        apply List.drop_eq_nil_of_le
        omega
      have hempty : c.readBuf = ([] : List Nat) := hbuf
      simp [BridgeConn.read, hbuf, hm, hlt, hdrop, hempty]
  · intro c cap rem hcl hrd hne
    simp [GTConn.read, hcl, hrd, hne]
  · intro c cap hcl hrd
    simp [GTConn.read, hcl, hrd]
  · intro c cap m rest hcl hrd hm hb hd
    rcases m with ⟨mt, md⟩
    cases hb
    simp [GTConn.read, hcl, hrd, hm, hd]
  · intro c cap m rest hcl hrd hm hb hd
    rcases m with ⟨mt, md⟩
    cases hb
    cases hd
    simp [GTConn.read, hcl, hrd, hm]

/-- Witness for C1: the amended clauses at a one-message concrete state. -/
theorem c1_witness :
    GTConn.read ⟨[⟨WSMsgType.text, [1]⟩], none, false, false, 0, []⟩ 4
      = some (([], some GoErr.ioEOF), ⟨[], none, false, false, 0, []⟩) ∧
    BridgeConn.read ⟨[⟨WSMsgType.text, [1]⟩], [], []⟩ 4
      = some (([], some GoErr.netErrClosed), ⟨[], [], []⟩) := by
  constructor
  · exact (c1_nonbinary_read.1 ⟨[⟨WSMsgType.text, [1]⟩], none, false, false, 0, []⟩ 4
      ⟨WSMsgType.text, [1]⟩ [] rfl rfl rfl rfl).1
  · exact c1_nonbinary_read.2.1 ⟨[⟨WSMsgType.text, [1]⟩], [], []⟩ 4
      ⟨WSMsgType.text, [1]⟩ [] rfl rfl rfl

/-- Witness for C2: a buffered remainder served on the bridge adapter, and a
partial read of a fresh binary message on the grpctunnel adapter. -/
theorem c2_witness :
    BridgeConn.read ⟨[], [5, 6], []⟩ 1 = some (([5], none), ⟨[], [6], []⟩) ∧
    GTConn.read ⟨[⟨WSMsgType.binary, [8, 9]⟩], none, false, false, 0, []⟩ 1
      = some (([8], none), ⟨[], some [9], false, false, 0, []⟩) := by
  constructor
  · exact c2_read_remainder.1 ⟨[], [5, 6], []⟩ 1 (by decide)
  · exact c2_read_remainder.2.2.2.2.1
      ⟨[⟨WSMsgType.binary, [8, 9]⟩], none, false, false, 0, []⟩ 1
      ⟨WSMsgType.binary, [8, 9]⟩ [] rfl rfl rfl rfl (by decide)

/-- C3: on an open adapter, Write sends the whole payload as exactly one
binary WebSocket message and returns (len(p), nil); a substrate write failure
is returned with a zero count, never a partial one; the browser Write hands
the payload to WebSocket.send as one message and returns (len(p), nil). -/
theorem c3_write_atomic :
    (∀ (c : GTConn) (p : List Nat), c.closed = false →
        GTConn.write c p none
          = ((p.length, none), { c with sent := c.sent ++ [⟨WSMsgType.binary, p⟩] })) ∧
    (∀ (c : GTConn) (p : List Nat) (e : GoErr), c.closed = false →
        GTConn.write c p (some e) = ((0, some e), c)) ∧
    (∀ (c : BrowserConn) (p : List Nat), c.closed = false →
        BrowserConn.write c p = ((p.length, none), { c with sent := c.sent ++ [p] })) := by
  refine ⟨?_, ?_, ?_⟩
  · intro c p hcl
    simp [GTConn.write, hcl]
  · intro c p e hcl
    simp [GTConn.write, hcl]
  · intro c p hcl
    simp [BrowserConn.write, hcl]

/-- Witness for C3 at concrete payloads. -/
theorem c3_witness :
    GTConn.write ⟨[], none, false, false, 0, []⟩ [1, 2] none
      = ((2, none), ⟨[], none, false, false, 0, [⟨WSMsgType.binary, [1, 2]⟩]⟩) ∧
    GTConn.write ⟨[], none, false, false, 0, []⟩ [1, 2] (some (GoErr.sub "broken"))
      = ((0, some (GoErr.sub "broken")), ⟨[], none, false, false, 0, []⟩) ∧
    BrowserConn.write ⟨[], [], false, false, []⟩ [3]
      = ((1, none), ⟨[], [], false, false, [[3]]⟩) := by
  refine ⟨?_, ?_, ?_⟩
  · exact c3_write_atomic.1 ⟨[], none, false, false, 0, []⟩ [1, 2] rfl
  · exact c3_write_atomic.2.1 ⟨[], none, false, false, 0, []⟩ [1, 2] (GoErr.sub "broken") rfl
  · exact c3_write_atomic.2.2 ⟨[], [], false, false, []⟩ [3] rfl

/-- A Close on a state whose once-guard has fired does nothing and returns
nil. -/
theorem gtConn_close_onceDone (c : GTConn) (wsRes : Option GoErr)
    (h : c.onceDone = true) : c.close wsRes = (none, c) := by
  simp [GTConn.close, h]

/-- After at least one Close from a state whose once-guard has not yet fired,
the state is the one the first Close produced, whatever came after. -/
theorem gtConn_afterCloses_pos (c : GTConn) (wsRes : Option GoErr)
    (h : c.onceDone = false) :
    ∀ k, 1 ≤ k → c.afterCloses wsRes k
      = { c with onceDone := true, closed := true, wsCloseCount := c.wsCloseCount + 1 } := by
  intro k hk
  induction k with
  | zero => omega
  | succ n ih =>
    cases n with
    | zero =>
      simp [GTConn.afterCloses, GTConn.close, h]
    | succ n2 =>
      have hs := ih (by omega)
      simp [GTConn.afterCloses] at hs ⊢
      rw [hs, gtConn_close_onceDone]
      rfl

/-- C4 counterexample: when the underlying ws.Close fails, the first Close
returns that error but the second returns nil — the k calls do not all return
the same value, because the err variable in Close is local and the once-guard
skips the assignment on later calls. -/
theorem c4_counterexample :
    GTConn.closeResult ⟨[], none, false, false, 0, []⟩ (some (GoErr.sub "close failed")) 0
      = some (GoErr.sub "close failed") ∧
    GTConn.closeResult ⟨[], none, false, false, 0, []⟩ (some (GoErr.sub "close failed")) 1
      = none ∧
    some (GoErr.sub "close failed") ≠ (none : Option GoErr) := by
  exact ⟨rfl, rfl, by simp⟩

/-- C4 (amended): calling Close k ≥ 1 times closes the underlying WebSocket
exactly once; the first call returns the underlying close result and every
later call returns nil — so all k calls return the same value whenever the
underlying close succeeds; after the first Close every Read returns 0 bytes
with io.EOF and every Write returns 0 bytes with io.ErrClosedPipe. -/
theorem c4_close_idempotent :
    (∀ (c : GTConn) (wsRes : Option GoErr) (k : Nat),
        c.onceDone = false → c.wsCloseCount = 0 → 1 ≤ k →
        (c.afterCloses wsRes k).wsCloseCount = 1) ∧
    (∀ (c : GTConn) (wsRes : Option GoErr),
        c.onceDone = false → GTConn.closeResult c wsRes 0 = wsRes) ∧
    (∀ (c : GTConn) (wsRes : Option GoErr) (k : Nat),
        1 ≤ k → c.onceDone = false → GTConn.closeResult c wsRes k = none) ∧
    (∀ (c : GTConn) (k : Nat), c.onceDone = false → GTConn.closeResult c none k = none) ∧
    (∀ (c : GTConn) (wsRes : Option GoErr) (k cap : Nat),
        c.onceDone = false → 1 ≤ k →
        GTConn.read (c.afterCloses wsRes k) cap
          = some (([], some GoErr.ioEOF), c.afterCloses wsRes k)) ∧
    (∀ (c : GTConn) (wsRes subErr : Option GoErr) (k : Nat) (p : List Nat),
        c.onceDone = false → 1 ≤ k →
        GTConn.write (c.afterCloses wsRes k) p subErr
          = ((0, some GoErr.errClosedPipe), c.afterCloses wsRes k)) := by
  refine ⟨?_, ?_, ?_, ?_, ?_, ?_⟩
  · intro c wsRes k h1 h2 hk
    rw [gtConn_afterCloses_pos c wsRes h1 k hk]
    simp [h2]
  · intro c wsRes h
    simp [GTConn.closeResult, GTConn.afterCloses, GTConn.close, h]
  · intro c wsRes k hk h
    unfold GTConn.closeResult
    rw [gtConn_afterCloses_pos c wsRes h k hk, gtConn_close_onceDone]
    rfl
  · intro c k h
    cases k with
    | zero => simp [GTConn.closeResult, GTConn.afterCloses, GTConn.close, h]
    | succ n =>
      unfold GTConn.closeResult
      rw [gtConn_afterCloses_pos c none h (n + 1) (by omega), gtConn_close_onceDone]
      rfl
  · intro c wsRes k cap h hk
    rw [gtConn_afterCloses_pos c wsRes h k hk]
    simp [GTConn.read]
  · intro c wsRes subErr k p h hk
    rw [gtConn_afterCloses_pos c wsRes h k hk]
    simp [GTConn.write]

/-- Witness for C4: two Close calls on a fresh adapter with a succeeding
underlying close: one underlying close, both calls return nil, and the closed
adapter fails Read and Write fast. -/
theorem c4_witness :
    (GTConn.afterCloses ⟨[], none, false, false, 0, []⟩ none 2).wsCloseCount = 1 ∧
    GTConn.closeResult ⟨[], none, false, false, 0, []⟩ none 0 = none ∧
    GTConn.closeResult ⟨[], none, false, false, 0, []⟩ none 1 = none ∧
    GTConn.read (GTConn.afterCloses ⟨[], none, false, false, 0, []⟩ none 2) 8
      = some (([], some GoErr.ioEOF), GTConn.afterCloses ⟨[], none, false, false, 0, []⟩ none 2) ∧
    GTConn.write (GTConn.afterCloses ⟨[], none, false, false, 0, []⟩ none 2) [1] none
      = ((0, some GoErr.errClosedPipe),
          GTConn.afterCloses ⟨[], none, false, false, 0, []⟩ none 2) := by
  refine ⟨?_, ?_, ?_, ?_, ?_⟩
  · exact c4_close_idempotent.1 ⟨[], none, false, false, 0, []⟩ none 2 rfl rfl (by omega)
  · exact c4_close_idempotent.2.1 ⟨[], none, false, false, 0, []⟩ none rfl
  · exact c4_close_idempotent.2.2.1 ⟨[], none, false, false, 0, []⟩ none 1 (by omega) rfl
  · exact c4_close_idempotent.2.2.2.2.1 ⟨[], none, false, false, 0, []⟩ none 2 8 rfl (by omega)
  · exact c4_close_idempotent.2.2.2.2.2 ⟨[], none, false, false, 0, []⟩ none none 2 [1] rfl
      (by omega)

/-- C5: with both hooks configured, a successful upgrade produces the trace
connect-hook, then the serve-loop events, then the deferred adapter close,
disconnect hook and ws close in that order; the hooks fire exactly once; a
failed upgrade produces no events at all; and the disconnect hook fires iff
the connect hook fired. -/
theorem c5_lifecycle_hooks :
    (∀ es : List WrapEvent,
        wrapTrace true true true es
          = WrapEvent.hookConnect ::
              (es ++ [WrapEvent.connClose, WrapEvent.hookDisconnect, WrapEvent.wsClose])) ∧
    (∀ es : List WrapEvent,
        (∀ e ∈ es, e ≠ WrapEvent.hookConnect ∧ e ≠ WrapEvent.hookDisconnect) →
        (wrapTrace true true true es).count WrapEvent.hookConnect = 1 ∧
        (wrapTrace true true true es).count WrapEvent.hookDisconnect = 1) ∧
    (∀ es : List WrapEvent, wrapTrace true true false es = []) ∧
    (∀ (es : List WrapEvent) (up : Bool),
        (WrapEvent.hookDisconnect ∈ wrapTrace true true up es
          ↔ WrapEvent.hookConnect ∈ wrapTrace true true up es)) := by
  have htr : ∀ es : List WrapEvent,
      wrapTrace true true true es
        = WrapEvent.hookConnect ::
            (es ++ [WrapEvent.connClose, WrapEvent.hookDisconnect, WrapEvent.wsClose]) := by
    intro es
    simp [wrapTrace]
  refine ⟨htr, ?_, ?_, ?_⟩
  · intro es hes
    have hc : WrapEvent.hookConnect ∉ es := fun hmem => (hes _ hmem).1 rfl
    have hd : WrapEvent.hookDisconnect ∉ es := fun hmem => (hes _ hmem).2 rfl
    rw [htr es]
    constructor
    · simp [List.count_cons, List.count_append, List.count_eq_zero.mpr hc]
    · simp [List.count_cons, List.count_append, List.count_eq_zero.mpr hd]
  · intro es
    simp [wrapTrace]
  · intro es up
    cases up with
    | false => simp [wrapTrace]
    | true =>
      rw [htr es]
      simp

/-- Witness for C5: the hook-count clause at a concrete serve-event list. -/
theorem c5_witness :
    (wrapTrace true true true [WrapEvent.adapterRead, WrapEvent.adapterWrite]).count
        WrapEvent.hookConnect = 1 ∧
    (wrapTrace true true true [WrapEvent.adapterRead, WrapEvent.adapterWrite]).count
        WrapEvent.hookDisconnect = 1 := by
  exact c5_lifecycle_hooks.2.1 [WrapEvent.adapterRead, WrapEvent.adapterWrite] (by decide)

/-- C7: the inbound message queue is bounded by its capacity of 10, and the
onmessage handler never blocks: a full queue leaves the state unchanged (the
message is silently dropped), while an open adapter with room appends a
non-empty message. -/
theorem c7_bounded_queue :
    browserMsgCapacity = 10 ∧
    (∀ (c : BrowserConn) (d : JSData),
        c.msgQueue.length ≤ browserMsgCapacity →
        (c.onMessage d).msgQueue.length ≤ browserMsgCapacity) ∧
    (∀ (c : BrowserConn) (d : JSData),
        browserMsgCapacity ≤ c.msgQueue.length → c.onMessage d = c) ∧
    (∀ (c : BrowserConn) (d : JSData),
        c.closed = false → c.msgQueue.length < browserMsgCapacity →
        0 < (jsDataBytes d).length →
        (c.onMessage d).msgQueue = c.msgQueue ++ [jsDataBytes d]) := by
  refine ⟨rfl, ?_, ?_, ?_⟩
  · intro c d h
    by_cases hb : 0 < (jsDataBytes d).length
    · by_cases hcl : c.closed
      · simp [BrowserConn.onMessage, hb, hcl, h]
      · by_cases hlen : c.msgQueue.length < browserMsgCapacity
        · simp [BrowserConn.onMessage, hb, hcl, hlen]
          omega
        · simp [BrowserConn.onMessage, hb, hcl, hlen, h]
    · simp [BrowserConn.onMessage, hb, h]
  · intro c d h
    have hlen : ¬ c.msgQueue.length < browserMsgCapacity := by omega
    by_cases hb : 0 < (jsDataBytes d).length
    · by_cases hcl : c.closed
      · simp [BrowserConn.onMessage, hb, hcl]
      · simp [BrowserConn.onMessage, hb, hcl, hlen]
    · simp [BrowserConn.onMessage, hb]
  · intro c d hcl hroom hbytes
    simp [BrowserConn.onMessage, hcl, hroom, hbytes]

/-- Witness for C7 at concrete queues: a full queue drops the message, a queue
with room appends it. -/
theorem c7_witness :
    BrowserConn.onMessage
        ⟨[[0], [0], [0], [0], [0], [0], [0], [0], [0], [0]], [], false, false, []⟩
        (JSData.buffer [1])
      = ⟨[[0], [0], [0], [0], [0], [0], [0], [0], [0], [0]], [], false, false, []⟩ ∧
    (BrowserConn.onMessage ⟨[[0]], [], false, false, []⟩ (JSData.buffer [1])).msgQueue
      = [[0], [1]] := by
  constructor
  · exact c7_bounded_queue.2.2.1
      ⟨[[0], [0], [0], [0], [0], [0], [0], [0], [0], [0]], [], false, false, []⟩
      (JSData.buffer [1]) (by decide)
  · exact c7_bounded_queue.2.2.2 ⟨[[0]], [], false, false, []⟩ (JSData.buffer [1])
      rfl (by decide) (by decide)

/-- C8: a message event whose extracted payload is empty never changes the
adapter state, so an empty message is never enqueued; the no-empty-message
queue invariant is preserved by the handler, and a Read that dequeues under
that invariant returns a non-empty chunk for any non-empty destination — no
Read ever observes an empty inbound message. -/
theorem c8_empty_message_dropped :
    (∀ (c : BrowserConn) (d : JSData), jsDataBytes d = [] → c.onMessage d = c) ∧
    (∀ (c : BrowserConn) (d : JSData),
        (∀ m ∈ c.msgQueue, m ≠ []) → ∀ m ∈ (c.onMessage d).msgQueue, m ≠ []) ∧
    (∀ (c : BrowserConn) (cap : Nat) (m : List Nat) (rest : List (List Nat)),
        c.closed = false → c.msgQueue = m :: rest → (∀ x ∈ c.msgQueue, x ≠ []) →
        0 < cap →
        BrowserConn.read c cap = some ((m.take cap, none), { c with msgQueue := rest }) ∧
        m.take cap ≠ []) := by
  refine ⟨?_, ?_, ?_⟩
  · intro c d h
    simp [BrowserConn.onMessage, h]
  · intro c d hinv
    by_cases hb : 0 < (jsDataBytes d).length
    · by_cases hcl : c.closed
      · simpa [BrowserConn.onMessage, hb, hcl] using hinv
      · by_cases hlen : c.msgQueue.length < browserMsgCapacity
        · intro m hm
          have hmem : m ∈ c.msgQueue ∨ m = jsDataBytes d := by
            simpa [BrowserConn.onMessage, hb, hcl, hlen, List.mem_append] using hm
          rcases hmem with h | rfl
          · exact hinv m h
          · intro he
            rw [he] at hb
            simp at hb
        · simpa [BrowserConn.onMessage, hb, hcl, hlen] using hinv
    · simpa [BrowserConn.onMessage, hb] using hinv
  · intro c cap m rest hcl hq hinv hcap
    constructor
    · simp [BrowserConn.read, hcl, hq]
    · have hm : m ≠ [] := hinv m (by simp [hq])
      cases m with
      | nil => exact absurd rfl hm
      | cons a l =>
        cases cap with
        | zero => omega
        | succ k => simp [List.take]

/-- Witness for C8 at a concrete state: an empty buffer event is a no-op and
a dequeue returns a non-empty chunk. -/
theorem c8_witness :
    BrowserConn.onMessage ⟨[[9]], [], false, false, []⟩ (JSData.buffer [])
      = ⟨[[9]], [], false, false, []⟩ ∧
    BrowserConn.read ⟨[[9]], [], false, false, []⟩ 4
      = some (([9], none), ⟨[], [], false, false, []⟩) := by
  constructor
  · exact c8_empty_message_dropped.1 ⟨[[9]], [], false, false, []⟩ (JSData.buffer []) rfl
  · exact (c8_empty_message_dropped.2.2 ⟨[[9]], [], false, false, []⟩ 4 [9] []
      rfl rfl (by decide) (by omega)).1

/-- C10: a Read on the open browser adapter that dequeues a message removes
the whole message from the queue and returns only its first len(dst) bytes;
the state keeps no remainder (BrowserConn has no remainder component at all),
so the excess is lost; with a zero-length destination this is (0, nil) and the
entire message is discarded. -/
theorem c10_read_discards_excess :
    (∀ (c : BrowserConn) (m : List Nat) (rest : List (List Nat)),
        c.closed = false → c.msgQueue = m :: rest →
        BrowserConn.read c 0 = some (([], none), { c with msgQueue := rest })) ∧
    (∀ (c : BrowserConn) (cap : Nat) (m : List Nat) (rest : List (List Nat)),
        c.closed = false → c.msgQueue = m :: rest →
        BrowserConn.read c cap = some ((m.take cap, none), { c with msgQueue := rest })) := by
  have hgen : ∀ (c : BrowserConn) (cap : Nat) (m : List Nat) (rest : List (List Nat)),
      c.closed = false → c.msgQueue = m :: rest →
      BrowserConn.read c cap = some ((m.take cap, none), { c with msgQueue := rest }) := by
    intro c cap m rest hcl hq
    simp [BrowserConn.read, hcl, hq]
  exact ⟨fun c m rest hcl hq => by simpa using hgen c 0 m rest hcl hq, hgen⟩

/-- Witness for C10: a 3-byte message read into a 0-byte buffer is dropped
whole with result (0, nil). -/
theorem c10_witness :
    BrowserConn.read ⟨[[1, 2, 3]], [], false, false, []⟩ 0
      = some (([], none), ⟨[], [], false, false, []⟩) := by
  exact c10_read_discards_excess.1 ⟨[[1, 2, 3]], [], false, false, []⟩ [1, 2, 3] [] rfl rfl
